import Mathlib

/-!
Verification development for the `offset_probe` Klipper extra
(`src/offset_probe.py`).

The Python module is embedded shallowly:

* Floating point configuration values and coordinates are modelled as
  exact rationals (`ℚ`); the module only adds, subtracts, halves and
  rounds them, so `ℚ` is a faithful carrier for every value the claims
  mention.
* The Klipper runtime (`printer.lookup_object`, toolheads, the homing
  helper, gcode templates) is external to the repository.  It is
  modelled as a `MachineState`: a total map from lookup keys to toolhead
  poses, the `homed_axes` status string, the `gcode_move.base_position`
  offset frame, and an oracle assigning to each successive probing move
  its outcome (the triggered Z, or an error message).  Every motion,
  script or output call the module makes is recorded in an event trace.
* `printer.lookup_object` is modelled as the identity on keys: the
  source passes both name strings and the integer literal `2` in
  toolhead position, so keys are `ObjKey` values and the machine resolves
  any key to a pose.
-/

namespace OffsetProbe

/-- A key passed to the external object lookup: either a name string or
the integer literal that appears at line 96 of the source. -/
inductive ObjKey where
  | name (s : String)
  | intKey (n : Int)
deriving DecidableEq, Repr

/-- A toolhead position, 4 components as in the source lists
`[x, y, z, e]`; `e` is the auxiliary extruder component (`pos[3:]`). -/
structure Pose where
  x : ℚ
  y : ℚ
  z : ℚ
  e : ℚ
deriving DecidableEq, Repr

/-- One externally visible action of the module. -/
inductive Event where
  | probingMove (target : Pose) (speed : ℚ)
  | manualMove (target : Pose) (speed : ℚ)
  | runScript (slot : String)
  | respond (msg : String)
deriving DecidableEq, Repr

/-- The immutable configuration loaded in `OffsetProbe.__init__`. -/
structure Config where
  probe_x : ℚ
  probe_y : ℚ
  tool_probe_z : ℚ
  speed : ℚ
  lift_speed : ℚ
  lift_distance : ℚ
  move_speed : ℚ
  z_position : ℚ
deriving Repr

/-- The state of the external machine plus the trace of actions issued
so far.  `homed` is the `homed_axes` status string as its character
list (the source tests `'z' not in homed_axes`); `oracle n` is the
outcome of the `n`-th probing move of the session (triggered Z, or the
error text raised by `probing_move`); `nprobes` counts probing moves
already issued. -/
structure MachineState where
  homed : List Char
  pos : ObjKey → Pose
  base_position : ℚ × ℚ × ℚ
  oracle : ℕ → Except String ℚ
  nprobes : ℕ
  trace : List Event

/-- The `LIFT_SPEED` named parameter surface of a gcode command. -/
structure GCmd where
  params : List (String × ℚ)
deriving DecidableEq, Repr

/-- `gcmd.get_float(key, default)`: the parameter value when present,
the default otherwise.  The `above=0.` validation of the source raises
on non-positive input and is immaterial to the claims. -/
def GCmd.get_float (g : GCmd) (key : String) (default : ℚ) : ℚ :=
  (g.params.lookup key).getD default

/-- Append an event to the trace. -/
def emit (st : MachineState) (ev : Event) : MachineState :=
  { st with trace := st.trace ++ [ev] }

/-- `toolhead.manual_move(target, speed)`: the toolhead moves to the
target and the move is recorded. -/
def manual_move (st : MachineState) (th : ObjKey) (target : Pose) (speed : ℚ) :
    MachineState :=
  { st with
      pos := fun k => if k = th then target else st.pos k,
      trace := st.trace ++ [Event.manualMove target speed] }

/-- Run one of the configured gcode template slots (external side
effects only; recorded in the trace). -/
def run_gcode (st : MachineState) (slot : String) : MachineState :=
  emit st (Event.runScript slot)

/-- Does `hay` start with `needle`, on character lists. -/
def startsWithChars : List Char → List Char → Bool
  | [], _ => true
  | _ :: _, [] => false
  | a :: as, b :: bs => a == b && startsWithChars as bs

/-- Does the second list contain the first as a contiguous run. -/
def hasSubChars (needle : List Char) : List Char → Bool
  | [] => startsWithChars needle []
  | b :: bs => startsWithChars needle (b :: bs) || hasSubChars needle bs

/-- Python substring test `needle in hay`. -/
def strHasSub (hay needle : String) : Bool :=
  hasSubChars needle.toList hay.toList

/-- The `HINT_TIMEOUT` module constant (triple-quoted string, so it
begins and ends with a newline). -/
def HINT_TIMEOUT : String :=
  "\nIf the probe did not move far enough to trigger, consider\nreducing the Z axis minimum position so the probe can travel further.\nThe probe will not move further than the minimum Z position.\n"

/-- Python `round`: round half to even (banker rounding), as applied to
the exact rational value. -/
def pyRound (q : ℚ) : ℤ :=
  let fl := ⌊q⌋
  if q - fl < 1/2 then fl
  else if q - fl > 1/2 then fl + 1
  else if fl % 2 = 0 then fl else fl + 1

/-- The speed of the confirmatory second probe,
`reprobe_speed = round(speed / 2)` (source line 94). -/
def reprobe_speed (speed : ℚ) : ℤ :=
  pyRound (speed / 2)

/-- Left-pad a numeral string with zeros to the given width. -/
def padZeros (w : ℕ) (s : String) : String :=
  String.mk (List.replicate (w - s.length) '0') ++ s

/-- Printf style `%.6f` on an exact rational. -/
def fmt6 (q : ℚ) : String :=
  let n : ℤ := pyRound (q * 1000000)
  let sign := if n < 0 then "-" else ""
  let m := n.natAbs
  sign ++ toString (m / 1000000) ++ "." ++ padZeros 6 (toString (m % 1000000))

/-- `'Tool %d: %.6f' % (i, z)`. -/
def toolLine (i : ℕ) (z : ℚ) : String :=
  "Tool " ++ toString i ++ ": " ++ fmt6 z

/-- `get_lift_speed` (source lines 57-60): with a command, the
`LIFT_SPEED` parameter defaulted to the configured lift speed; without
one, the configured lift speed. -/
def get_lift_speed (cfg : Config) (gcmd : Option GCmd) : ℚ :=
  match gcmd with
  | some g => g.get_float "LIFT_SPEED" cfg.lift_speed
  | none => cfg.lift_speed

/-- `_ensure_homed` (source lines 63-67): raise unless the `z` axis is
in `homed_axes`. -/
def ensure_homed (st : MachineState) : Except String Unit :=
  if st.homed.contains 'z' then Except.ok ()
  else Except.error "Must home before offset probing"

/-- `_probe` (source lines 70-88): ensure homed, build the plunge target
from the current toolhead position with Z replaced by the configured
floor, issue the probing move, classify a failure (append `HINT_TIMEOUT`
when the error text contains the endstop timeout message, otherwise
re-raise the text unchanged), and on success return the triggered Z.
After a successful probing move the toolhead rests at the trigger
position. -/
def probe (cfg : Config) (st : MachineState) (speed : ℚ) (toolhead : ObjKey) :
    MachineState × Except String ℚ :=
  match ensure_homed st with
  | Except.error e => (st, Except.error e)
  | Except.ok _ =>
    let pos := st.pos toolhead
    let target : Pose := { pos with z := cfg.z_position }
    let outcome := st.oracle st.nprobes
    let st := { st with
                  nprobes := st.nprobes + 1,
                  trace := st.trace ++ [Event.probingMove target speed] }
    match outcome with
    | Except.error e =>
      let reason :=
        if strHasSub e "Timeout during endstop homing" then e ++ HINT_TIMEOUT
        else e
      (st, Except.error reason)
    | Except.ok ztrig =>
      let newPose : Pose := { target with z := ztrig }
      ({ st with pos := fun k => if k = toolhead then newPose else st.pos k },
       Except.ok ztrig)

/-- `_lift_between_probes` (source lines 111-117): default the distance
to the configured lift distance, take the current position of the looked
up toolhead, raise only its Z, and issue a manual move at the configured
lift speed. -/
def lift_between_probes (cfg : Config) (st : MachineState) (toolhead : ObjKey)
    (dist : Option ℚ) : MachineState :=
  let d := match dist with
    | none => cfg.lift_distance
    | some d => d
  let p := st.pos toolhead
  manual_move st toolhead { p with z := p.z + d } cfg.lift_speed

/-- `_accurate_probe` (source lines 91-98): probe at the given speed,
lift (the literal `2` of line 96 binds to the toolhead parameter of
`_lift_between_probes`, so the distance argument stays at its default),
re-probe at `round(speed / 2)`, and return the second triggered Z. -/
def accurate_probe (cfg : Config) (st : MachineState) (speed : ℚ)
    (toolhead : ObjKey) : MachineState × Except String ℚ :=
  match probe cfg st speed toolhead with
  | (st, Except.error e) => (st, Except.error e)
  | (st, Except.ok _) =>
    let rspeed : ℚ := (reprobe_speed speed : ℤ)
    let st := lift_between_probes cfg st (ObjKey.intKey 2) none
    match probe cfg st rspeed toolhead with
    | (st, Except.error e) => (st, Except.error e)
    | (st, Except.ok accurate_z) => (st, Except.ok accurate_z)

/-- `_get_gcode_position` (source lines 100-109): translate each
provided axis by the corresponding component of
`gcode_move.base_position`, keep an absent axis absent. -/
def get_gcode_position (st : MachineState) (x y z : Option ℚ) :
    Option ℚ × Option ℚ × Option ℚ :=
  let offsets := st.base_position
  let x := match x with
    | some v => some (v + offsets.1)
    | none => none
  let y := match y with
    | some v => some (v + offsets.2.1)
    | none => none
  let z := match z with
    | some v => some (v + offsets.2.2)
    | none => none
  (x, y, z)

/-- `cmd_OFFSET_PROBE` (source lines 121-169).  Line 136 of the source,
`coord = self.probe_x, y=self.probe_y, z=curr_pos[2] + curr_pos[3:]`, is
not syntactically valid Python; it is embedded as its closest executable
reading, building the tool 0 coordinate directly from `probe_x`,
`probe_y` and the current Z without any call to `_get_gcode_position`
(the written line contains no such call, in contrast to line 152 for the
second tool).  The command object is received only for its reporting
surface; the source never reads a parameter from it. -/
def cmd_OFFSET_PROBE (cfg : Config) (st : MachineState) (_gcmd : GCmd) :
    MachineState × Except String (List ℚ) :=
  let st := run_gcode st "start_gcode"
  let toolhead := ObjKey.name "toolhead"
  let offsets : List ℚ := []
  let st := run_gcode st "toolchange_gcode_0"
  let curr_pos := st.pos toolhead
  let coord : Pose :=
    { x := cfg.probe_x, y := cfg.probe_y, z := curr_pos.z, e := curr_pos.e }
  let st := manual_move st toolhead coord cfg.move_speed
  match accurate_probe cfg st cfg.speed toolhead with
  | (st, Except.error e) => (st, Except.error e)
  | (st, Except.ok base_z) =>
    let st := emit st (Event.respond (toolLine 0 base_z))
    let st := lift_between_probes cfg st toolhead none
    let toolhead := ObjKey.name "toolhead1"
    let st := run_gcode st "toolchange_gcode_1"
    let curr_pos := st.pos toolhead
    let res := get_gcode_position st (some cfg.probe_x) (some cfg.probe_y)
        (some curr_pos.z)
    let coord : Pose :=
      { x := res.1.getD 0, y := res.2.1.getD 0, z := res.2.2.getD 0,
        e := curr_pos.e }
    let st := manual_move st toolhead coord cfg.move_speed
    match accurate_probe cfg st cfg.speed toolhead with
    | (st, Except.error e) => (st, Except.error e)
    | (st, Except.ok z) =>
      let offsets := offsets ++ [z - base_z]
      let st := emit st (Event.respond (toolLine 0 z))
      let st := lift_between_probes cfg st toolhead none
      let st := run_gcode st "end_gcode"
      let offset_str := offsets.enum.map
        (fun p => "T" ++ toString p.1 ++ "=" ++ fmt6 p.2)
      let st := emit st
        (Event.respond ("Offsets: " ++ String.intercalate ", " offset_str))
      (st, Except.ok offsets)

/-- `%.6f` of a rational already scaled to an integer number of
millionths. -/
def fmt6Int (n : ℤ) : String :=
  (if n < 0 then "-" else "") ++ toString (n.natAbs / 1000000) ++ "." ++
    padZeros 6 (toString (n.natAbs % 1000000))

/-- The `respond_info` lines of a trace, in order. -/
def respondLines (tr : List Event) : List String :=
  tr.filterMap (fun ev => match ev with
    | Event.respond m => some m
    | _ => none)

/-- The speeds of the `manual_move` events of a trace, in order. -/
def manualMoveSpeeds (tr : List Event) : List ℚ :=
  tr.filterMap (fun ev => match ev with
    | Event.manualMove _ s => some s
    | _ => none)

/-! ### Helper lemmas -/

/-- Rounding an integer value is the identity. -/
lemma pyRound_intCast (n : ℤ) : pyRound (n : ℚ) = n := by
  unfold pyRound
  norm_num

/-- Evaluate `fmt6` once the scaled value is known to be integral. -/
lemma fmt6_of_mul (q : ℚ) (n : ℤ) (h : q * 1000000 = (n : ℚ)) :
    fmt6 q = fmt6Int n := by
  unfold fmt6 fmt6Int
  rw [h, pyRound_intCast]

/-- Closed form of a successful probe: homed check passes, the probing
move towards the floor target is recorded, the toolhead comes to rest at
the triggered height, and the triggered Z is returned. -/
lemma probe_ok (cfg : Config) (st : MachineState) (speed : ℚ) (th : ObjKey)
    (z : ℚ) (hh : st.homed.contains 'z' = true)
    (ho : st.oracle st.nprobes = Except.ok z) :
    probe cfg st speed th =
      ({ st with
           pos := fun k => if k = th then
               { x := (st.pos th).x, y := (st.pos th).y, z := z,
                 e := (st.pos th).e }
             else st.pos k,
           nprobes := st.nprobes + 1,
           trace := st.trace ++
             [Event.probingMove
               { x := (st.pos th).x, y := (st.pos th).y, z := cfg.z_position,
                 e := (st.pos th).e } speed] },
       Except.ok z) := by
  unfold probe ensure_homed
  rw [hh, ho]
  rfl

/-- Closed form of a failed probe: the probing move is recorded and the
error text is surfaced, with the timeout hint appended exactly when the
underlying message contains the endstop timeout text. -/
lemma probe_err (cfg : Config) (st : MachineState) (speed : ℚ) (th : ObjKey)
    (e : String) (hh : st.homed.contains 'z' = true)
    (ho : st.oracle st.nprobes = Except.error e) :
    probe cfg st speed th =
      ({ st with
           nprobes := st.nprobes + 1,
           trace := st.trace ++
             [Event.probingMove
               { x := (st.pos th).x, y := (st.pos th).y, z := cfg.z_position,
                 e := (st.pos th).e } speed] },
       Except.error
         (if strHasSub e "Timeout during endstop homing" then
            e ++ HINT_TIMEOUT
          else e)) := by
  unfold probe ensure_homed
  rw [hh, ho]
  rfl

/-- Closed form of a fully successful calibration run.  `z0a, z0` are
the two triggered heights of the first accurate probe (tool 0) and
`z1a, z1` those of the second (tool 1); only `z0` and `z1` matter.  The
trace lists every externally visible action in order, and the returned
offset list is exactly `[z1 - z0]`. -/
lemma cmd_run (cfg : Config) (st : MachineState) (g : GCmd)
    (z0a z0 z1a z1 : ℚ)
    (hh : st.homed.contains 'z' = true)
    (h0 : st.oracle st.nprobes = Except.ok z0a)
    (h1 : st.oracle (st.nprobes + 1) = Except.ok z0)
    (h2 : st.oracle (st.nprobes + 1 + 1) = Except.ok z1a)
    (h3 : st.oracle (st.nprobes + 1 + 1 + 1) = Except.ok z1) :
    cmd_OFFSET_PROBE cfg st g =
      ({ st with
           pos := (cmd_OFFSET_PROBE cfg st g).1.pos,
           nprobes := st.nprobes + 1 + 1 + 1 + 1,
           trace := st.trace ++
             [Event.runScript "start_gcode",
              Event.runScript "toolchange_gcode_0",
              Event.manualMove
                { x := cfg.probe_x, y := cfg.probe_y,
                  z := (st.pos (ObjKey.name "toolhead")).z,
                  e := (st.pos (ObjKey.name "toolhead")).e } cfg.move_speed,
              Event.probingMove
                { x := cfg.probe_x, y := cfg.probe_y, z := cfg.z_position,
                  e := (st.pos (ObjKey.name "toolhead")).e } cfg.speed,
              Event.manualMove
                { x := (st.pos (ObjKey.intKey 2)).x,
                  y := (st.pos (ObjKey.intKey 2)).y,
                  z := (st.pos (ObjKey.intKey 2)).z + cfg.lift_distance,
                  e := (st.pos (ObjKey.intKey 2)).e } cfg.lift_speed,
              Event.probingMove
                { x := cfg.probe_x, y := cfg.probe_y, z := cfg.z_position,
                  e := (st.pos (ObjKey.name "toolhead")).e }
                ((reprobe_speed cfg.speed : ℤ) : ℚ),
              Event.respond (toolLine 0 z0),
              Event.manualMove
                { x := cfg.probe_x, y := cfg.probe_y,
                  z := z0 + cfg.lift_distance,
                  e := (st.pos (ObjKey.name "toolhead")).e } cfg.lift_speed,
              Event.runScript "toolchange_gcode_1",
              Event.manualMove
                { x := cfg.probe_x + st.base_position.1,
                  y := cfg.probe_y + st.base_position.2.1,
                  z := (st.pos (ObjKey.name "toolhead1")).z +
                    st.base_position.2.2,
                  e := (st.pos (ObjKey.name "toolhead1")).e } cfg.move_speed,
              Event.probingMove
                { x := cfg.probe_x + st.base_position.1,
                  y := cfg.probe_y + st.base_position.2.1,
                  z := cfg.z_position,
                  e := (st.pos (ObjKey.name "toolhead1")).e } cfg.speed,
              Event.manualMove
                { x := (st.pos (ObjKey.intKey 2)).x,
                  y := (st.pos (ObjKey.intKey 2)).y,
                  z := (st.pos (ObjKey.intKey 2)).z + cfg.lift_distance +
                    cfg.lift_distance,
                  e := (st.pos (ObjKey.intKey 2)).e } cfg.lift_speed,
              Event.probingMove
                { x := cfg.probe_x + st.base_position.1,
                  y := cfg.probe_y + st.base_position.2.1,
                  z := cfg.z_position,
                  e := (st.pos (ObjKey.name "toolhead1")).e }
                ((reprobe_speed cfg.speed : ℤ) : ℚ),
              Event.respond (toolLine 0 z1),
              Event.manualMove
                { x := cfg.probe_x + st.base_position.1,
                  y := cfg.probe_y + st.base_position.2.1,
                  z := z1 + cfg.lift_distance,
                  e := (st.pos (ObjKey.name "toolhead1")).e } cfg.lift_speed,
              Event.runScript "end_gcode",
              Event.respond ("Offsets: " ++ String.intercalate ", "
                ["T" ++ toString 0 ++ "=" ++ fmt6 (z1 - z0)])] },
       Except.ok [z1 - z0]) := by
  have hmem : 'z' ∈ st.homed := List.mem_of_elem_eq_true hh
  simp [cmd_OFFSET_PROBE, accurate_probe, probe, ensure_homed,
    lift_between_probes, manual_move, run_gcode, emit, get_gcode_position,
    hh, hmem, h0, h1, h2, h3, List.enum]

/-! ### Concrete scenarios -/

/-- The end-to-end configuration of the specification scenario:
probe point (10, 20), reprobe height 1, plunge speed 5, lift speed
defaulting to the plunge speed, lift distance 0.5, move speed 100,
probing floor at the default minimum Z of 0. -/
def cfgScenario : Config :=
  { probe_x := 10, probe_y := 20, tool_probe_z := 1, speed := 5,
    lift_speed := 5, lift_distance := 1/2, move_speed := 100,
    z_position := 0 }

/-- Machine for the specification scenario: homed, all toolheads parked
at the origin with Z = 5, no active offset frame, and probes triggering
at 0.5 for tool 0 and 0.62 for tool 1 (both passes of each accurate
probe trigger at the same height). -/
def stScenario : MachineState :=
  { homed := ['x', 'y', 'z']
    pos := fun _ => { x := 0, y := 0, z := 5, e := 0 }
    base_position := (0, 0, 0)
    oracle := fun n =>
      ([Except.ok (1/2), Except.ok (1/2), Except.ok (62/100),
        Except.ok (62/100)] : List (Except String ℚ)).getD n
        (Except.error "no more probes")
    nprobes := 0
    trace := [] }

/-- An `OFFSET_PROBE` invocation without arguments. -/
def gcmdNone : GCmd := { params := [] }

/-! ### Claim theorems -/

/-- C1.  In the 2-tool specification scenario (tool 0 triggers at
0.500000, tool 1 at 0.620000) the command does NOT behave as claimed:
the progress line for tool 1 is emitted as `Tool 0: 0.620000` (the
source hard-codes index 0 at line 159) and the summary labels the only
delta `T0`, so the emitted summary is `Offsets: T0=0.120000` rather than
the claimed `Offsets: T1=0.120000`. -/
theorem cmd_scenario_mislabelled_output :
    respondLines (cmd_OFFSET_PROBE cfgScenario stScenario gcmdNone).1.trace =
      ["Tool 0: 0.500000", "Tool 0: 0.620000", "Offsets: T0=0.120000"] ∧
    respondLines (cmd_OFFSET_PROBE cfgScenario stScenario gcmdNone).1.trace ≠
      ["Tool 0: 0.500000", "Tool 1: 0.620000", "Offsets: T1=0.120000"] := by
  have hrun := cmd_run cfgScenario stScenario gcmdNone (1/2) (1/2) (62/100)
    (62/100) (by rfl) (by rfl) (by rfl) (by rfl) (by rfl)
  have f1 : fmt6 (1/2 : ℚ) = "0.500000" := by
    rw [fmt6_of_mul (1/2 : ℚ) 500000 (by norm_num)]
    decide
  have f2 : fmt6 (62/100 : ℚ) = "0.620000" := by
    rw [fmt6_of_mul (62/100 : ℚ) 620000 (by norm_num)]
    decide
  have f3 : fmt6 ((62:ℚ)/100 - 1/2) = "0.120000" := by
    rw [fmt6_of_mul ((62:ℚ)/100 - 1/2) 120000 (by norm_num)]
    decide
  rw [hrun]
  refine ⟨?_, ?_⟩ <;>
  · simp only [respondLines, stScenario, List.filterMap_append,
      List.filterMap_cons, List.filterMap_nil, List.nil_append, f1, f2, f3,
      toolLine]
    decide

/-- C2.  In a completed run the collected offset list is exactly
`[z1 - z0]`: one entry per non-reference tool, the exact difference of
the two accurate measurements with no rounding, and no entry for the
reference tool. -/
theorem cmd_offsets_exact (cfg : Config) (st : MachineState) (g : GCmd)
    (z0a z0 z1a z1 : ℚ)
    (hh : st.homed.contains 'z' = true)
    (h0 : st.oracle st.nprobes = Except.ok z0a)
    (h1 : st.oracle (st.nprobes + 1) = Except.ok z0)
    (h2 : st.oracle (st.nprobes + 2) = Except.ok z1a)
    (h3 : st.oracle (st.nprobes + 3) = Except.ok z1) :
    (cmd_OFFSET_PROBE cfg st g).2 = Except.ok [z1 - z0] := by
  rw [cmd_run cfg st g z0a z0 z1a z1 hh h0 h1 h2 h3]

/-- Witness for C2: the specification scenario yields exactly the
offset list `[0.12]`. -/
theorem cmd_offsets_exact_witness :
    stScenario.homed.contains 'z' = true ∧
    (cmd_OFFSET_PROBE cfgScenario stScenario gcmdNone).2 =
      Except.ok [(12 : ℚ)/100] := by
  refine ⟨by rfl, ?_⟩
  have h := cmd_offsets_exact cfgScenario stScenario gcmdNone (1/2) (1/2)
    (62/100) (62/100) (by rfl) (by rfl) (by rfl) (by rfl) (by rfl)
  have e : (62 : ℚ)/100 - 1/2 = 12/100 := by norm_num
  rw [h, e]

/-- C3.  `_accurate_probe` issues exactly two probing moves with exactly
one lift in between; the lift raises Z by the configured lift distance
(the distance argument is left at its default, whatever the probe
results are), and the returned value is the second triggered Z while the
first is discarded. -/
theorem accurate_probe_protocol (cfg : Config) (st : MachineState)
    (speed : ℚ) (th : ObjKey) (z1 z2 : ℚ)
    (hh : st.homed.contains 'z' = true)
    (h1 : st.oracle st.nprobes = Except.ok z1)
    (h2 : st.oracle (st.nprobes + 1) = Except.ok z2)
    (hth : th ≠ ObjKey.intKey 2) :
    (accurate_probe cfg st speed th).2 = Except.ok z2 ∧
    (accurate_probe cfg st speed th).1.trace = st.trace ++
      [Event.probingMove
        { x := (st.pos th).x, y := (st.pos th).y, z := cfg.z_position,
          e := (st.pos th).e } speed,
       Event.manualMove
        { x := (st.pos (ObjKey.intKey 2)).x, y := (st.pos (ObjKey.intKey 2)).y,
          z := (st.pos (ObjKey.intKey 2)).z + cfg.lift_distance,
          e := (st.pos (ObjKey.intKey 2)).e } cfg.lift_speed,
       Event.probingMove
        { x := (st.pos th).x, y := (st.pos th).y, z := cfg.z_position,
          e := (st.pos th).e } ((reprobe_speed speed : ℤ) : ℚ)] := by
  have hmem : 'z' ∈ st.homed := List.mem_of_elem_eq_true hh
  have hth2 : ObjKey.intKey 2 ≠ th := Ne.symm hth
  constructor <;>
    simp [accurate_probe, probe, ensure_homed, lift_between_probes,
      manual_move, hh, hmem, h1, h2, hth, hth2]

/-- Witness for C3: a concrete accurate probe returns the second
triggered height. -/
theorem accurate_probe_protocol_witness :
    stScenario.homed.contains 'z' = true ∧
    (accurate_probe cfgScenario stScenario 5 (ObjKey.name "toolhead")).2 =
      Except.ok (1/2) :=
  ⟨by rfl,
   (accurate_probe_protocol cfgScenario stScenario 5 (ObjKey.name "toolhead")
     (1/2) (1/2) (by rfl) (by rfl) (by rfl) (by decide)).1⟩

/-- C4 counterexample.  At the configured speed `s = 1` (which satisfies
`s ≥ 1`) the reprobe speed `round(1 / 2)` is 0 under Python rounding
(round half to even), not strictly positive as claimed. -/
theorem reprobe_speed_one_not_positive :
    (1 : ℚ) ≥ 1 ∧ reprobe_speed 1 = 0 ∧ ¬ (0 < reprobe_speed 1) := by
  have hf : ⌊(1 : ℚ)/2⌋ = 0 := by norm_num [Int.floor_eq_iff]
  have h : reprobe_speed 1 = 0 := by
    simp only [reprobe_speed, pyRound, hf]
    norm_num
  refine ⟨le_refl 1, h, ?_⟩
  rw [h]
  exact lt_irrefl 0

/-- C4 amended.  The confirmatory second probe runs at
`round(speed / 2)` with round half to even, and this speed is strictly
positive for every configured speed strictly greater than 1 (at exactly
1 it is 0). -/
theorem reprobe_speed_half_positive (s : ℚ) (h : 1 < s) :
    reprobe_speed s = pyRound (s / 2) ∧ 0 < reprobe_speed s := by
  refine ⟨rfl, ?_⟩
  simp only [reprobe_speed, pyRound]
  have hx : (1 : ℚ)/2 < s/2 := by linarith
  have hle : ((⌊s/2⌋ : ℤ) : ℚ) ≤ s/2 := Int.floor_le _
  have hgt : s/2 < (⌊s/2⌋ : ℤ) + 1 := Int.lt_floor_add_one _
  have hfl : 0 ≤ ⌊s/2⌋ := Int.floor_nonneg.mpr (by linarith)
  split_ifs with c1 c2 c3
  · have hq : (0 : ℚ) < ((⌊s/2⌋ : ℤ) : ℚ) := by linarith
    exact_mod_cast hq
  · omega
  · have hq : (0 : ℚ) < ((⌊s/2⌋ : ℤ) : ℚ) := by
      push_neg at c1 c2
      linarith
    exact_mod_cast hq
  · omega

/-- Witness for the amended C4 at `s = 3`. -/
theorem reprobe_speed_half_positive_witness :
    (1 : ℚ) < 3 ∧ 0 < reprobe_speed 3 :=
  ⟨by norm_num, (reprobe_speed_half_positive 3 (by norm_num)).2⟩

/-- C5.  When the motion system does not report Z as homed, `_probe`
fails with the not-homed precondition error and the machine state is
untouched: no motion or probing command is issued. -/
theorem probe_unhomed_blocked (cfg : Config) (st : MachineState) (speed : ℚ)
    (th : ObjKey) (h : st.homed.contains 'z' = false) :
    probe cfg st speed th =
      (st, Except.error "Must home before offset probing") := by
  unfold probe ensure_homed
  rw [h]
  rfl

/-- Machine whose `homed_axes` reports only X and Y. -/
def stUnhomed : MachineState :=
  { homed := ['x', 'y']
    pos := fun _ => { x := 0, y := 0, z := 5, e := 0 }
    base_position := (0, 0, 0)
    oracle := fun _ => Except.ok 0
    nprobes := 0
    trace := [] }

/-- Witness for C5: with `homed_axes = xy` the probe is rejected without
any command being issued. -/
theorem probe_unhomed_blocked_witness :
    stUnhomed.homed.contains 'z' = false ∧
    probe cfgScenario stUnhomed 5 (ObjKey.name "toolhead") =
      (stUnhomed, Except.error "Must home before offset probing") :=
  ⟨by rfl,
   probe_unhomed_blocked cfgScenario stUnhomed 5 (ObjKey.name "toolhead")
     (by rfl)⟩

/-- C6.  When the underlying probing move fails, the surfaced error is
the original message with `HINT_TIMEOUT` appended if and only if the
message contains `Timeout during endstop homing`; any other message is
surfaced verbatim. -/
theorem probe_error_surfacing (cfg : Config) (st : MachineState) (speed : ℚ)
    (th : ObjKey) (e : String)
    (hh : st.homed.contains 'z' = true)
    (he : st.oracle st.nprobes = Except.error e) :
    (strHasSub e "Timeout during endstop homing" = true →
      (probe cfg st speed th).2 = Except.error (e ++ HINT_TIMEOUT)) ∧
    (strHasSub e "Timeout during endstop homing" = false →
      (probe cfg st speed th).2 = Except.error e) := by
  rw [probe_err cfg st speed th e hh he]
  constructor <;> intro hc <;> simp [hc]

/-- Machine whose first probing move times out with the endstop timeout
message. -/
def stTimeout : MachineState :=
  { homed := ['x', 'y', 'z']
    pos := fun _ => { x := 0, y := 0, z := 5, e := 0 }
    base_position := (0, 0, 0)
    oracle := fun _ => Except.error "Timeout during endstop homing"
    nprobes := 0
    trace := [] }

/-- Witness for C6 on a concrete timeout message. -/
theorem probe_error_surfacing_witness :
    stTimeout.homed.contains 'z' = true ∧
    strHasSub "Timeout during endstop homing"
      "Timeout during endstop homing" = true ∧
    ((strHasSub "Timeout during endstop homing"
        "Timeout during endstop homing" = true →
      (probe cfgScenario stTimeout 5 (ObjKey.name "toolhead")).2 =
        Except.error ("Timeout during endstop homing" ++ HINT_TIMEOUT)) ∧
     (strHasSub "Timeout during endstop homing"
        "Timeout during endstop homing" = false →
      (probe cfgScenario stTimeout 5 (ObjKey.name "toolhead")).2 =
        Except.error "Timeout during endstop homing")) :=
  ⟨by rfl, by decide,
   probe_error_surfacing cfgScenario stTimeout 5 (ObjKey.name "toolhead")
     "Timeout during endstop homing" (by rfl) (by rfl)⟩

/-- Machine with a non-trivial active offset frame `(7, 11, 13)` and
both toolheads at `(1, 2, 3, 4)`, for exercising coordinate
resolution. -/
def st7 : MachineState :=
  { homed := ['x', 'y', 'z']
    pos := fun _ => { x := 1, y := 2, z := 3, e := 4 }
    base_position := (7, 11, 13)
    oracle := fun _ => Except.ok (1/2)
    nprobes := 0
    trace := [] }

/-- C7.  With the offset frame `(7, 11, 13)` active, the move to the
probe point for tool 0 (trace event 2) targets the raw logical
coordinates `(10, 20, 3)` — `_get_gcode_position` is not applied — while
the corresponding move for tool 1 (trace event 9) targets the resolved
coordinates `(10+7, 20+11, 3+13)`.  Tool 0 therefore probes an
unresolved position, contradicting the claim that the resolver is
applied for every tool. -/
theorem cmd_tool0_target_unresolved :
    (cmd_OFFSET_PROBE cfgScenario st7 gcmdNone).1.trace.get? 2 =
      some (Event.manualMove { x := 10, y := 20, z := 3, e := 4 } 100) ∧
    get_gcode_position st7 (some 10) (some 20) (some 3) =
      (some (10 + 7), some (20 + 11), some (3 + 13)) ∧
    (10 : ℚ) ≠ 10 + 7 ∧
    (cmd_OFFSET_PROBE cfgScenario st7 gcmdNone).1.trace.get? 9 =
      some (Event.manualMove
        { x := 10 + 7, y := 20 + 11, z := 3 + 13, e := 4 } 100) := by
  have hrun := cmd_run cfgScenario st7 gcmdNone (1/2) (1/2) (1/2) (1/2)
    (by rfl) (by rfl) (by rfl) (by rfl) (by rfl)
  refine ⟨?_, by rfl, by norm_num, ?_⟩
  · rw [hrun]
    rfl
  · rw [hrun]
    rfl

/-- Configuration with a lift speed of 7, distinguishable from both the
move speed and the attempted override. -/
def cfg9 : Config :=
  { probe_x := 10, probe_y := 20, tool_probe_z := 1, speed := 5,
    lift_speed := 7, lift_distance := 1/2, move_speed := 100,
    z_position := 0 }

/-- An `OFFSET_PROBE LIFT_SPEED=42` invocation. -/
def g9 : GCmd := { params := [("LIFT_SPEED", 42)] }

/-- C9.  `get_lift_speed` does parse the `LIFT_SPEED` override (here
42), but `cmd_OFFSET_PROBE` never calls it: every lift of the run moves
at the configured lift speed 7, the command ignores its argument list
entirely, and 42 appears nowhere among the commanded move speeds. -/
theorem lift_speed_override_ignored :
    get_lift_speed cfg9 (some g9) = 42 ∧
    get_lift_speed cfg9 (some g9) ≠ cfg9.lift_speed ∧
    manualMoveSpeeds (cmd_OFFSET_PROBE cfg9 stScenario g9).1.trace =
      [100, 7, 7, 100, 7, 7] ∧
    (42 : ℚ) ∉
      manualMoveSpeeds (cmd_OFFSET_PROBE cfg9 stScenario g9).1.trace ∧
    cmd_OFFSET_PROBE cfg9 stScenario g9 =
      cmd_OFFSET_PROBE cfg9 stScenario gcmdNone := by
  have hrun := cmd_run cfg9 stScenario g9 (1/2) (1/2) (62/100) (62/100)
    (by rfl) (by rfl) (by rfl) (by rfl) (by rfl)
  have hs : manualMoveSpeeds (cmd_OFFSET_PROBE cfg9 stScenario g9).1.trace =
      [100, 7, 7, 100, 7, 7] := by
    rw [hrun]
    rfl
  refine ⟨by rfl, ?_, hs, ?_, by rfl⟩
  · show (42 : ℚ) ≠ 7
    norm_num
  · rw [hs]
    norm_num

/-- C8.  `_get_gcode_position` translates every provided axis by the
matching component of the active offset frame and leaves an absent axis
absent. -/
theorem get_gcode_position_translates (st : MachineState)
    (x y z : Option ℚ) :
    get_gcode_position st x y z =
      (Option.map (fun v => v + st.base_position.1) x,
       Option.map (fun v => v + st.base_position.2.1) y,
       Option.map (fun v => v + st.base_position.2.2) z) := by
  cases x <;> cases y <;> cases z <;> rfl

/-- C10.  A lift commands a target identical to the current pose of the
looked-up toolhead except that Z is increased by the requested distance
(the configured lift distance when none is given), and the toolhead ends
at that target. -/
theorem lift_preserves_other_axes (cfg : Config) (st : MachineState)
    (th : ObjKey) (dist : Option ℚ) :
    (lift_between_probes cfg st th dist).trace = st.trace ++
      [Event.manualMove
        { x := (st.pos th).x, y := (st.pos th).y,
          z := (st.pos th).z + dist.getD cfg.lift_distance,
          e := (st.pos th).e } cfg.lift_speed] ∧
    (lift_between_probes cfg st th dist).pos th =
      { x := (st.pos th).x, y := (st.pos th).y,
        z := (st.pos th).z + dist.getD cfg.lift_distance,
        e := (st.pos th).e } := by
  cases dist <;>
    exact ⟨rfl, by simp [lift_between_probes, manual_move]⟩

end OffsetProbe
